import Mathlib

/-!
Verification of the SENA WhatsApp backend (andrepspereira/sena-whatsapp-backend).

The repository is a set of Express servers over a Supabase `messages` table.
The authoritative revision is "v11h" (src/server.js, lines 635-955); earlier
revisions appear in the same file and in src/unnamed/part_000..part_003.
This file shallowly embeds the conversation-state machine, the ledger
operations and the HTTP handlers that the claims are about, and proves the
claimed properties.

Conventions of the embedding:
* JavaScript strings stay `String`; nullable fields are `Option String`,
  with JS truthiness (`null`/`undefined`/`""` falsy) modelled by `truthyS`.
* The store clock (`created_at`/`updated_at`, assigned from `nowIso()`)
  is a `Nat` counter carried in `DB`; every mutating operation consumes a
  tick, which models the monotonically increasing wall-clock timestamps.
* Store failures (unreachable Supabase, missing `status_conversa` column)
  are external-collaborator failures; the embedding models the successful
  path with the column present (`HAS_STATUS_CONVERSA = true`).
-/

/-- The `Status` object of v11h (src/server.js lines 677-682). -/
def Status.ROBO : String := "EM_ATENDIMENTO_ROBO"

/-- `Status.PENDENTE` from the v11h `Status` object. -/
def Status.PENDENTE : String := "PENDENTE"

/-- `Status.HUMANO` from the v11h `Status` object. -/
def Status.HUMANO : String := "EM_ATENDIMENTO_HUMANO"

/-- `Status.FINALIZADO` from the v11h `Status` object. -/
def Status.FINALIZADO : String := "FINALIZADO"

/-- `Object.values(Status)` in declaration order, as used by the v11h
PATCH status endpoint's `includes` check. -/
def statusValues : List String :=
  [Status.ROBO, Status.PENDENTE, Status.HUMANO, Status.FINALIZADO]

/-- JS truthiness of a nullable string: `null`/`undefined` and `""` are falsy. -/
def truthyS : Option String → Bool
  | none => false
  | some s => s ≠ ""

/-- `a || d` for a nullable string `a` and string default `d`. -/
def jsOrStr (a : Option String) (d : String) : String :=
  match a with
  | none => d
  | some s => if s = "" then d else s

/-- `a || b` for two nullable strings (result still nullable). -/
def jsOrOpt (a b : Option String) : Option String :=
  if truthyS a then a else b

/-- `normalizePhone`: `String(p || '').replace(/[^\d]/g, '')` — keep ASCII digits. -/
def normalizePhone (s : String) : String :=
  ⟨s.data.filter Char.isDigit⟩

/-- Model of the JS built-in `String.prototype.toLowerCase` restricted to the
Latin repertoire the configured trigger phrases can meet (ASCII letters and
the accented letters of Portuguese); other characters are left unchanged. -/
def jsLowerChar (c : Char) : Char :=
  if 'A' ≤ c ∧ c ≤ 'Z' then Char.ofNat (c.toNat + 32)
  else match c with
  | 'Á' => 'á' | 'À' => 'à' | 'Â' => 'â' | 'Ã' => 'ã' | 'Ç' => 'ç'
  | 'É' => 'é' | 'Ê' => 'ê' | 'Í' => 'í' | 'Ó' => 'ó' | 'Ô' => 'ô'
  | 'Õ' => 'õ' | 'Ú' => 'ú' | 'Ü' => 'ü'
  | _ => c

/-- `String.prototype.toLowerCase` on a whole string (see `jsLowerChar`). -/
def jsToLower (s : String) : String :=
  ⟨s.data.map jsLowerChar⟩

/-- Model of Unicode NFD decomposition (`String.prototype.normalize('NFD')`)
restricted to the same Latin repertoire: each precomposed accented letter
decomposes into its base letter followed by a combining mark in U+0300-U+036F. -/
def nfdChar (c : Char) : List Char :=
  match c with
  | 'á' => ['a', Char.ofNat 0x301] | 'à' => ['a', Char.ofNat 0x300]
  | 'â' => ['a', Char.ofNat 0x302] | 'ã' => ['a', Char.ofNat 0x303]
  | 'ç' => ['c', Char.ofNat 0x327] | 'é' => ['e', Char.ofNat 0x301]
  | 'ê' => ['e', Char.ofNat 0x302] | 'í' => ['i', Char.ofNat 0x301]
  | 'ó' => ['o', Char.ofNat 0x301] | 'ô' => ['o', Char.ofNat 0x302]
  | 'õ' => ['o', Char.ofNat 0x303] | 'ú' => ['u', Char.ofNat 0x301]
  | 'ü' => ['u', Char.ofNat 0x308]
  | _ => [c]

/-- The regex class `[̀-ͯ]` (combining diacritical marks). -/
def isCombiningMark (c : Char) : Bool :=
  0x300 ≤ c.toNat ∧ c.toNat ≤ 0x36F

/-- `normaliseString` (v11h, src/server.js line 672; also src/unnamed/part_000
lines 24-30): lowercase, NFD-decompose, strip combining marks, strip `.` `!` `?`. -/
def normaliseString (s : String) : String :=
  ⟨(((s.data.map jsLowerChar).flatMap nfdChar).filter
      (fun c => ¬ isCombiningMark c)).filter
      (fun c => c ≠ '.' ∧ c ≠ '!' ∧ c ≠ '?')⟩

/-- The first list starts the second one (character lists). -/
def startsWithSeq : List Char → List Char → Bool
  | [], _ => true
  | _ :: _, [] => false
  | a :: as, b :: bs => a = b && startsWithSeq as bs

/-- `needle` occurs as a contiguous subsequence of `hay`: the semantics of
JS `String.prototype.includes`. -/
def containsSeq : List Char → List Char → Bool
  | needle, [] => needle.isEmpty
  | needle, c :: rest => startsWithSeq needle (c :: rest) || containsSeq needle rest

/-- `hay.includes(needle)` for JS strings. -/
def jsIncludes (hay needle : String) : Bool :=
  containsSeq needle.data hay.data

/-- `TRANSFER_TRIGGERS` of v11h (src/server.js lines 684-687). -/
def TRANSFER_TRIGGERS : List String :=
  ["vou te transferir para um atendente humano",
   "vou te deixar com alguem da equipe"]

/-- `TRANSFER_TRIGGERS.some(t => normaliseString(text).includes(t))`
(v11h webhook, src/server.js line 887). -/
def hasTransferTrigger (text : String) : Bool :=
  TRANSFER_TRIGGERS.any (fun t => jsIncludes (normaliseString text) t)

/-- One row of the Supabase `messages` table, as written by the servers. -/
structure Row where
  instance_id : String
  numero_paciente : String
  nome_paciente : Option String
  mensagem_paciente : Option String
  resposta_robo : Option String
  resposta_atendente : Option String
  remetente : String
  status_atendimento : Option String
  status_conversa : Option String
  created_at : Nat
  updated_at : Nat
deriving Repr, DecidableEq

/-- The `messages` table plus the store clock that stamps `created_at` /
`updated_at` (the JS code uses `nowIso()`; successive operations observe
monotonically increasing timestamps). -/
structure DB where
  rows : List Row
  clock : Nat
deriving Repr, DecidableEq

/-- Stamp a row with a creation time, as `safeInsert` does with
`created_at: nowIso(), updated_at: nowIso()`. -/
def stamp (r : Row) (t : Nat) : Row :=
  { r with created_at := t, updated_at := t }

/-- `safeInsert` (v11h, src/server.js lines 696-709), happy path with the
`status_conversa` column present: append the stamped row. -/
def safeInsert (r : Row) (db : DB) : DB :=
  { rows := db.rows ++ [stamp r db.clock], clock := db.clock + 1 }

/-- The per-row effect of `setConversationStatusMass`: on a row of the
conversation key, set both status columns and refresh `updated_at`. -/
def updRow (numero statusKey : String) (t : Nat) (r : Row) : Row :=
  if r.numero_paciente = numero then
    { r with status_atendimento := some statusKey,
             status_conversa := some statusKey,
             updated_at := t }
  else r

/-- `setConversationStatusMass` (v11h, src/server.js lines 746-750):
bulk-set `status_atendimento`, `status_conversa` and `updated_at` on every
row of the conversation key. -/
def massUpdate (numero statusKey : String) (db : DB) : DB :=
  { rows := db.rows.map (updRow numero statusKey db.clock),
    clock := db.clock + 1 }

/-- One step of the fold that keeps the row with the greatest `created_at`
among the rows of one conversation key (earlier row kept on ties). -/
def latestStep (numero : String) (acc : Option Row) (msg : Row) : Option Row :=
  if msg.numero_paciente = numero then
    match acc with
    | none => some msg
    | some prev => if prev.created_at < msg.created_at then some msg else some prev
  else acc

/-- The row for `numero` with the greatest `created_at` — the reduction both
`getLastMessageInfo` (order by `created_at` descending, limit 1) and the
`byNumero` loop of `/api/conversations` perform. -/
def latestRowFor (numero : String) (rows : List Row) : Option Row :=
  rows.foldl (latestStep numero) none

/-- `lastInfo.status_conversa || lastInfo.status_atendimento || Status.ROBO`
seeded from `getLastMessageInfo` (v11h, src/server.js lines 726-735, 870). -/
def currentStatusOf (db : DB) (numero : String) : String :=
  match latestRowFor numero db.rows with
  | none => Status.ROBO
  | some r => jsOrStr r.status_conversa (jsOrStr r.status_atendimento Status.ROBO)

/-- Comparison by creation time used to order a transcript. -/
def timeLE (a b : Row) : Prop := a.created_at ≤ b.created_at

instance : DecidableRel timeLE := fun a b => Nat.decLe a.created_at b.created_at

/-- Insert a row into a time-ordered list (insertion-sort step). -/
def insertByTime (r : Row) : List Row → List Row
  | [] => [r]
  | x :: xs => if r.created_at ≤ x.created_at then r :: x :: xs else x :: insertByTime r xs

/-- Sort rows ascending by `created_at`: the order the store returns for an
ascending order-by on that column. -/
def sortByTime : List Row → List Row
  | [] => []
  | x :: xs => insertByTime x (sortByTime xs)

/-- `GET /api/conversation/:numero/messages` data fetch (v11h, src/server.js
lines 914-932): all rows of the key, in the store's ascending order by
`created_at`. -/
def getHistory (numero : String) (db : DB) : List Row :=
  sortByTime (db.rows.filter (fun r => r.numero_paciente = numero))

/-- Every `created_at` in the table is below the store clock: the invariant
the monotone timestamp source maintains. -/
def timesOK (rows : List Row) (c : Nat) : Prop :=
  ∀ r ∈ rows, r.created_at < c

/-- Ascending by creation time (the claimed transcript order). -/
def Ascending (l : List Row) : Prop :=
  l.Pairwise timeLE

/-- The webhook request payload fields the v11h handler reads (after the
`numeroPaciente | numero_paciente` style aliases are collapsed). -/
structure Payload where
  instanceId : Option String
  numeroPaciente : Option String
  mensagemPaciente : Option String
  respostaRobo : Option String
  nomePaciente : Option String
  remetente : Option String
deriving Repr, DecidableEq

/-- `String(body.instanceId || body.instance_id || '0')`. -/
def effInstanceId (p : Payload) : String := jsOrStr p.instanceId "0"

/-- `body.respostaRobo || body.resposta_robo || null`. -/
def effResposta (p : Payload) : Option String :=
  if truthyS p.respostaRobo then p.respostaRobo else none

/-- `body.remetente || (respostaRobo ? 'Robô' : 'Paciente')` (v11h line 865). -/
def effRemetente (p : Payload) : String :=
  jsOrStr p.remetente (if truthyS p.respostaRobo then "Robô" else "Paciente")

/-- `safeString(body.nomePaciente || body.nome_paciente || '')`. -/
def effNome (p : Payload) : String := jsOrStr p.nomePaciente ""

/-- The v11h patient-side state switch (src/server.js lines 872-877):
`FINALIZADO → ROBO`, `HUMANO → PENDENTE`, anything else kept. -/
def v11hPatientStep (current : String) : String :=
  if current = Status.FINALIZADO then Status.ROBO
  else if current = Status.HUMANO then Status.PENDENTE
  else current

/-- `nextStatusOnPatient` (src/unnamed/part_000 lines 40-48): the pure FSM
for a patient message, with `null`/never-seen falling to the default case. -/
def nextStatusOnPatient (lastStatus : Option String) : String :=
  match lastStatus with
  | some s =>
    if s = Status.FINALIZADO then Status.ROBO
    else if s = Status.PENDENTE then Status.PENDENTE
    else if s = Status.HUMANO then Status.PENDENTE
    else if s = Status.ROBO then Status.ROBO
    else Status.ROBO
  | none => Status.ROBO

/-- The §4.1 table of the spec, written in the repository's status vocabulary
(`BOT_ACTIVE` = `EM_ATENDIMENTO_ROBO`, `AWAITING_HUMAN` = `PENDENTE`,
`HUMAN_ACTIVE` = `EM_ATENDIMENTO_HUMANO`, `CLOSED` = `FINALIZADO`); the
refinement comparand for the State Resolver claim. -/
def specNextStateOnPatientMessage (s : Option String) : String :=
  match s with
  | none => Status.ROBO
  | some st =>
    if st = Status.FINALIZADO then Status.ROBO
    else if st = Status.PENDENTE then Status.PENDENTE
    else if st = Status.HUMANO then Status.PENDENTE
    else Status.ROBO

/-- Responses of the v11h webhook that the claims observe. -/
inductive WebhookResp
  | badRequest
  | received (suppressed : Bool)
deriving Repr, DecidableEq

/-- Responses of the first-revision webhook (no suppression flag). -/
inductive SimpleResp
  | badRequest
  | received
deriving Repr, DecidableEq

/-- The patient-message row the v11h webhook inserts (sans timestamps;
`safeInsert` stamps those). -/
def patientRowOf (p : Payload) (numero cur : String) : Row :=
  { instance_id := effInstanceId p, numero_paciente := numero,
    nome_paciente := some (effNome p),
    mensagem_paciente := some (jsOrStr p.mensagemPaciente ""),
    resposta_robo := none, resposta_atendente := none,
    remetente := "Paciente",
    status_atendimento := some cur, status_conversa := some cur,
    created_at := 0, updated_at := 0 }

/-- The robot-reply row the v11h webhook inserts (sans timestamps). -/
def robotRowOf (p : Payload) (numero resp statusForBot : String) : Row :=
  { instance_id := effInstanceId p, numero_paciente := numero,
    nome_paciente := some (effNome p), mensagem_paciente := none,
    resposta_robo := some resp, resposta_atendente := none,
    remetente := "Robô",
    status_atendimento := some statusForBot,
    status_conversa := some statusForBot,
    created_at := 0, updated_at := 0 }

/-- The patient branch of the v11h webhook (src/server.js lines 872-882):
when the sender is the patient, step the state, insert the patient row if
there is patient text, and bulk-override when the new state is
`PENDENTE`/`FINALIZADO`.  Returns the (possibly updated) `current` status
and the database. -/
def v11hPatient (p : Payload) (numero : String) (db : DB) : String × DB :=
  let cur0 := currentStatusOf db numero
  if effRemetente p = "Paciente" then
    let cur := v11hPatientStep cur0
    let db1 :=
      if truthyS p.mensagemPaciente then safeInsert (patientRowOf p numero cur) db
      else db
    let db2 :=
      if cur = Status.PENDENTE ∨ cur = Status.FINALIZADO then
        massUpdate numero cur db1
      else db1
    (cur, db2)
  else (cur0, db)

/-- The robot branch of the v11h webhook (src/server.js lines 884-889):
suppress when the current status is `PENDENTE`/`FINALIZADO`; otherwise
detect the transfer trigger (forcing a mass override to `PENDENTE`) and
insert the robot row. -/
def v11hRobot (p : Payload) (numero cur : String) (db : DB) : WebhookResp × DB :=
  match effResposta p with
  | none => (.received false, db)
  | some resp =>
    if cur = Status.PENDENTE ∨ cur = Status.FINALIZADO then (.received true, db)
    else
      let trig := hasTransferTrigger resp
      let statusForBot := if trig then Status.PENDENTE else Status.ROBO
      let db3 := if trig then massUpdate numero Status.PENDENTE db else db
      (.received false, safeInsert (robotRowOf p numero resp statusForBot) db3)

/-- `POST /api/webhook` of v11h (src/server.js lines 854-893), after JSON
parsing succeeded: reject a missing conversation key, then run the patient
branch and the robot branch. -/
def v11hWebhook (p : Payload) (db : DB) : WebhookResp × DB :=
  let numero := normalizePhone (jsOrStr p.numeroPaciente "")
  if numero = "" then (.badRequest, db)
  else
    let pd := v11hPatient p numero db
    v11hRobot p numero pd.1 pd.2

/-- `POST /api/webhook` of the first revision (src/server.js lines 177-246):
requires both `numeroPaciente` and `mensagemPaciente`; always inserts the
patient row with status `PENDENTE`; a robot reply is inserted with status
`EM_ATENDIMENTO` and a lowercased-substring transfer check bulk-sets
`status_atendimento` to `PENDENTE`. -/
def firstWebhook (p : Payload) (db : DB) : SimpleResp × DB :=
  if ¬ truthyS p.numeroPaciente ∨ ¬ truthyS p.mensagemPaciente then
    (.badRequest, db)
  else
    let numero := jsOrStr p.numeroPaciente ""
    let db1 := safeInsert
      { instance_id := effInstanceId p, numero_paciente := numero,
        nome_paciente := p.nomePaciente,
        mensagem_paciente := some (jsOrStr p.mensagemPaciente ""),
        resposta_robo := none, resposta_atendente := none,
        remetente := "Paciente",
        status_atendimento := some "PENDENTE", status_conversa := none,
        created_at := 0, updated_at := 0 } db
    match effResposta p with
    | none => (.received, db1)
    | some resp =>
      let db2 := safeInsert
        { instance_id := effInstanceId p, numero_paciente := numero,
          nome_paciente := p.nomePaciente, mensagem_paciente := none,
          resposta_robo := some resp, resposta_atendente := none,
          remetente := "Robô",
          status_atendimento := some "EM_ATENDIMENTO", status_conversa := none,
          created_at := 0, updated_at := 0 } db1
      let db3 :=
        if jsIncludes (jsToLower resp) "transferir para um atendente humano" then
          { rows := db2.rows.map (fun r =>
              if r.numero_paciente = numero then
                { r with status_atendimento := some "PENDENTE" }
              else r),
            clock := db2.clock }
        else db2
      (.received, db3)

/-- Per-instance credentials (`instances` table row) for the human-send path. -/
structure InstMeta where
  token : Option String
  source_number : Option String
deriving Repr, DecidableEq

/-- Whitespace in the sense of the JS built-in `String.prototype.trim`
(restricted to the common ASCII whitespace plus NBSP). -/
def isJsSpace (c : Char) : Bool :=
  c = ' ' ∨ c = '\t' ∨ c = '\n' ∨ c = '\r' ∨ c.toNat = 0x0B ∨
  c.toNat = 0x0C ∨ c.toNat = 0xA0

/-- Model of the JS built-in `String.prototype.trim`: drop leading and
trailing whitespace. -/
def jsTrim (s : String) : String :=
  ⟨(((s.data.dropWhile isJsSpace).reverse.dropWhile isJsSpace).reverse)⟩

/-- The attendant row `handleHumanSend` inserts after a confirmed delivery
(sans timestamps; `safeInsert` stamps those). -/
def agentRowOf (instanceId phone nome text : String) : Row :=
  { instance_id := instanceId, numero_paciente := phone,
    nome_paciente := some nome,
    mensagem_paciente := none, resposta_robo := none,
    resposta_atendente := some text, remetente := "Atendente",
    status_atendimento := some Status.HUMANO,
    status_conversa := some Status.HUMANO,
    created_at := 0, updated_at := 0 }

/-- `handleHumanSend` (v11h, src/server.js lines 774-803).  External
collaborators appear as arguments: `inst` is the result of the `instances`
lookup (`none` for a query error or missing row) and `gsStatus` is the HTTP
status the Gupshup delivery call returned.  Returns the HTTP status of the
handler's response and the resulting database. -/
def handleHumanSend (inst : Option InstMeta) (gsStatus : Nat)
    (instanceId : String) (numeroPaciente nomePaciente texto : Option String)
    (db : DB) : Nat × DB :=
  let phone := normalizePhone (jsOrStr numeroPaciente "")
  let text := jsTrim (jsOrStr texto "")
  if phone = "" ∨ text = "" then (400, db)
  else
    match inst with
    | none => (500, db)
    | some m =>
      if ¬ truthyS m.token ∨ ¬ truthyS m.source_number then (500, db)
      else if gsStatus < 200 ∨ 300 ≤ gsStatus then (502, db)
      else
        (200, safeInsert (agentRowOf instanceId phone (jsOrStr nomePaciente "") text)
                (massUpdate phone Status.HUMANO db))

/-- `desired = statusAtendimento || status` of the v11h PATCH status
endpoint, collapsed to `none` when falsy. -/
def desiredStatus (statusAtendimento status : Option String) : Option String :=
  let d := jsOrOpt statusAtendimento status
  if truthyS d then d else none

/-- `PATCH /api/conversation/:numero/status` of v11h (src/server.js lines
935-942): reject a falsy or non-enumerated status, otherwise bulk-override. -/
def patchStatus (numeroRaw : String) (statusAtendimento status : Option String)
    (db : DB) : SimpleResp × DB :=
  let numero := normalizePhone numeroRaw
  match desiredStatus statusAtendimento status with
  | none => (.badRequest, db)
  | some d =>
    if d ∈ statusValues then (.received, massUpdate numero d db)
    else (.badRequest, db)

/-- One element of the `GET /api/conversations` response of v11h
(src/server.js lines 896-911). -/
structure ConvEntry where
  numeroPaciente : String
  nomePaciente : Option String
  lastMessage : Option String
  statusAtendimento : String
  lastRemetente : String
  label : String
  updatedAt : Nat
  instanceId : String
deriving Repr, DecidableEq

/-- Build the conversation-list entry from the latest row of a key,
exactly as the v11h `/api/conversations` loop does. -/
def convEntry (msg : Row) : ConvEntry :=
  let status := jsOrStr msg.status_conversa (jsOrStr msg.status_atendimento Status.ROBO)
  { numeroPaciente := msg.numero_paciente,
    nomePaciente := if truthyS msg.nome_paciente then msg.nome_paciente else none,
    lastMessage :=
      if truthyS msg.mensagem_paciente then msg.mensagem_paciente
      else if truthyS msg.resposta_robo then msg.resposta_robo
      else msg.resposta_atendente,
    statusAtendimento := status,
    lastRemetente := msg.remetente,
    label :=
      if status = Status.FINALIZADO then "FINALIZADO"
      else if status = Status.PENDENTE then "PENDENTE"
      else if status = Status.HUMANO then "HUMANO"
      else "ROBÔ",
    updatedAt := msg.updated_at,
    instanceId := msg.instance_id }

/-- The `listConversations()` entry for one key: the `byNumero` reduction of
`GET /api/conversations` (v11h) restricted to that key. -/
def listEntryFor (numero : String) (db : DB) : Option ConvEntry :=
  (latestRowFor numero db.rows).map convEntry

/-- A `ConvEntry` without its `updatedAt` recency watermark. -/
structure ConvEntryCore where
  numeroPaciente : String
  nomePaciente : Option String
  lastMessage : Option String
  statusAtendimento : String
  lastRemetente : String
  label : String
  instanceId : String
deriving Repr, DecidableEq

/-- Forget the `updatedAt` field of a conversation-list entry. -/
def ConvEntry.core (e : ConvEntry) : ConvEntryCore :=
  { numeroPaciente := e.numeroPaciente, nomePaciente := e.nomePaciente,
    lastMessage := e.lastMessage, statusAtendimento := e.statusAtendimento,
    lastRemetente := e.lastRemetente, label := e.label,
    instanceId := e.instanceId }

/-! ### Helper lemmas about the ledger operations -/

theorem massUpdate_rows_length (numero s : String) (db : DB) :
    (massUpdate numero s db).rows.length = db.rows.length := by
  simp [massUpdate]

theorem updRow_numero (numero s : String) (t : Nat) (r : Row) :
    (updRow numero s t r).numero_paciente = r.numero_paciente := by
  unfold updRow; split <;> rfl

theorem updRow_created (numero s : String) (t : Nat) (r : Row) :
    (updRow numero s t r).created_at = r.created_at := by
  unfold updRow; split <;> rfl

theorem updRow_status (numero s : String) (t : Nat) (r : Row)
    (h : r.numero_paciente = numero) :
    (updRow numero s t r).status_atendimento = some s ∧
    (updRow numero s t r).status_conversa = some s := by
  unfold updRow; rw [if_pos h]; exact ⟨rfl, rfl⟩

theorem mem_massUpdate_status (numero s : String) (db : DB) (r : Row)
    (hr : r ∈ (massUpdate numero s db).rows) (hn : r.numero_paciente = numero) :
    r.status_atendimento = some s ∧ r.status_conversa = some s := by
  simp only [massUpdate, List.mem_map] at hr
  obtain ⟨r₀, _, rfl⟩ := hr
  have h₀ : r₀.numero_paciente = numero := by
    rw [← updRow_numero numero s db.clock r₀]; exact hn
  exact updRow_status _ _ _ _ h₀

theorem latestStep_isSome (numero : String) (a msg : Row) :
    (latestStep numero (some a) msg).isSome := by
  unfold latestStep
  split
  · dsimp only; split <;> rfl
  · rfl

theorem foldl_latestStep_isSome (numero : String) (rows : List Row) (a : Row) :
    (rows.foldl (latestStep numero) (some a)).isSome := by
  induction rows generalizing a with
  | nil => rfl
  | cons x xs ih =>
    simp only [List.foldl_cons]
    obtain ⟨b, hb⟩ := Option.isSome_iff_exists.mp (latestStep_isSome numero a x)
    rw [hb]
    exact ih b

theorem foldl_latestStep_isSome_of_mem (numero : String) (rows : List Row)
    (acc : Option Row) (r : Row) (hr : r ∈ rows) (hn : r.numero_paciente = numero) :
    (rows.foldl (latestStep numero) acc).isSome := by
  induction rows generalizing acc with
  | nil => cases hr
  | cons x xs ih =>
    simp only [List.foldl_cons]
    rcases List.mem_cons.mp hr with rfl | hx
    · have hsome : ∃ b, latestStep numero acc r = some b := by
        unfold latestStep
        rw [if_pos hn]
        cases acc with
        | none => exact ⟨r, rfl⟩
        | some prev => dsimp only; split <;> exact ⟨_, rfl⟩
      obtain ⟨b, hb⟩ := hsome
      rw [hb]
      exact foldl_latestStep_isSome numero xs b
    · exact ih _ hx

theorem foldl_latestStep_spec (numero : String) (rows : List Row) :
    ∀ (acc : Option Row) (r : Row), rows.foldl (latestStep numero) acc = some r →
      acc = some r ∨ (r ∈ rows ∧ r.numero_paciente = numero) := by
  induction rows with
  | nil => intro acc r h; exact Or.inl h
  | cons x xs ih =>
    intro acc r h
    simp only [List.foldl_cons] at h
    rcases ih (latestStep numero acc x) r h with h₁ | h₂
    · unfold latestStep at h₁
      by_cases hx : x.numero_paciente = numero
      · rw [if_pos hx] at h₁
        cases acc with
        | none =>
          right
          cases Option.some.inj h₁
          exact ⟨List.mem_cons_self _ _, hx⟩
        | some prev =>
          dsimp only at h₁
          split at h₁
          · right
            cases Option.some.inj h₁
            exact ⟨List.mem_cons_self _ _, hx⟩
          · exact Or.inl h₁
      · rw [if_neg hx] at h₁
        exact Or.inl h₁
    · exact Or.inr ⟨List.mem_cons_of_mem _ h₂.1, h₂.2⟩

theorem latestRowFor_spec (numero : String) (rows : List Row) (r : Row)
    (h : latestRowFor numero rows = some r) :
    r ∈ rows ∧ r.numero_paciente = numero := by
  rcases foldl_latestStep_spec numero rows none r h with h₁ | h₂
  · exact absurd h₁ (by simp)
  · exact h₂

theorem latestRowFor_isSome (numero : String) (rows : List Row) (r : Row)
    (hr : r ∈ rows) (hn : r.numero_paciente = numero) :
    (latestRowFor numero rows).isSome :=
  foldl_latestStep_isSome_of_mem numero rows none r hr hn

theorem latestStep_map (numero : String) (f : Row → Row)
    (hf₁ : ∀ r, (f r).numero_paciente = r.numero_paciente)
    (hf₂ : ∀ r, (f r).created_at = r.created_at)
    (acc : Option Row) (msg : Row) :
    latestStep numero (acc.map f) (f msg) = (latestStep numero acc msg).map f := by
  unfold latestStep
  rw [hf₁]
  by_cases h : msg.numero_paciente = numero
  · rw [if_pos h, if_pos h]
    cases acc with
    | none => rfl
    | some prev =>
      show (if (f prev).created_at < (f msg).created_at then some (f msg) else some (f prev))
          = Option.map f (if prev.created_at < msg.created_at then some msg else some prev)
      rw [hf₂ prev, hf₂ msg]
      by_cases hc : prev.created_at < msg.created_at
      · rw [if_pos hc, if_pos hc]; rfl
      · rw [if_neg hc, if_neg hc]; rfl
  · rw [if_neg h, if_neg h]

theorem foldl_latestStep_map (numero : String) (f : Row → Row)
    (hf₁ : ∀ r, (f r).numero_paciente = r.numero_paciente)
    (hf₂ : ∀ r, (f r).created_at = r.created_at) :
    ∀ (rows : List Row) (acc : Option Row),
      (rows.map f).foldl (latestStep numero) (acc.map f)
        = (rows.foldl (latestStep numero) acc).map f := by
  intro rows
  induction rows with
  | nil => intro acc; rfl
  | cons x xs ih =>
    intro acc
    simp only [List.map_cons, List.foldl_cons]
    rw [latestStep_map numero f hf₁ hf₂]
    exact ih _

theorem latestRowFor_map (numero : String) (f : Row → Row)
    (hf₁ : ∀ r, (f r).numero_paciente = r.numero_paciente)
    (hf₂ : ∀ r, (f r).created_at = r.created_at) (rows : List Row) :
    latestRowFor numero (rows.map f) = (latestRowFor numero rows).map f := by
  unfold latestRowFor
  have h := foldl_latestStep_map numero f hf₁ hf₂ rows none
  simpa using h

/-! ### Helper lemmas about the transcript ordering -/

theorem mem_insertByTime (x a : Row) (l : List Row) :
    a ∈ insertByTime x l ↔ a = x ∨ a ∈ l := by
  induction l with
  | nil => simp [insertByTime]
  | cons y ys ih =>
    unfold insertByTime
    split
    · simp [List.mem_cons]
    · simp only [List.mem_cons, ih]
      tauto

theorem mem_sortByTime (a : Row) (l : List Row) : a ∈ sortByTime l ↔ a ∈ l := by
  induction l with
  | nil => simp [sortByTime]
  | cons x xs ih => simp [sortByTime, mem_insertByTime, ih]

theorem pairwise_insertByTime (x : Row) (l : List Row) (h : l.Pairwise timeLE) :
    (insertByTime x l).Pairwise timeLE := by
  induction l with
  | nil => simp [insertByTime]
  | cons y ys ih =>
    rcases List.pairwise_cons.mp h with ⟨hy, hys⟩
    unfold insertByTime
    split
    · rename_i hxy
      refine List.pairwise_cons.mpr ⟨?_, h⟩
      intro b hb
      rcases List.mem_cons.mp hb with rfl | hbys
      · exact hxy
      · exact Nat.le_trans hxy (hy b hbys)
    · rename_i hxy
      refine List.pairwise_cons.mpr ⟨?_, ih hys⟩
      intro b hb
      rcases (mem_insertByTime x b ys).mp hb with rfl | hbys
      · exact Nat.le_of_not_le hxy
      · exact hy b hbys

theorem pairwise_sortByTime (l : List Row) : (sortByTime l).Pairwise timeLE := by
  induction l with
  | nil => simp [sortByTime]
  | cons x xs ih => exact pairwise_insertByTime x _ ih

theorem insertByTime_append_last (x e : Row) (l : List Row)
    (h : x.created_at ≤ e.created_at) :
    insertByTime x (l ++ [e]) = insertByTime x l ++ [e] := by
  induction l with
  | nil =>
    simp only [List.nil_append]
    unfold insertByTime
    rw [if_pos h]
    rfl
  | cons y ys ih =>
    simp only [List.cons_append]
    unfold insertByTime
    split
    · rfl
    · rw [ih]
      rfl

theorem sortByTime_append_last (e : Row) (l : List Row)
    (h : ∀ a ∈ l, a.created_at ≤ e.created_at) :
    sortByTime (l ++ [e]) = sortByTime l ++ [e] := by
  induction l with
  | nil => rfl
  | cons x xs ih =>
    have ih' := ih (fun a ha => h a (List.mem_cons_of_mem x ha))
    simp only [List.cons_append, sortByTime, List.append_eq] at ih' ⊢
    rw [ih']
    exact insertByTime_append_last x e _ (h x (List.mem_cons_self x xs))

/-! ### Concrete fixtures used by witnesses and counterexamples -/

/-- The empty `messages` table. -/
def emptyDB : DB := { rows := [], clock := 0 }

/-- A ledger row left by a confirmed human send (state `EM_ATENDIMENTO_HUMANO`). -/
def humanRow : Row :=
  { instance_id := "0", numero_paciente := "5521999887766", nome_paciente := none,
    mensagem_paciente := none, resposta_robo := none,
    resposta_atendente := some "ola", remetente := "Atendente",
    status_atendimento := some Status.HUMANO, status_conversa := some Status.HUMANO,
    created_at := 0, updated_at := 0 }

/-- A one-conversation table whose current state is `EM_ATENDIMENTO_HUMANO`. -/
def humanDB : DB := { rows := [humanRow], clock := 1 }

/-! ### Claim theorems -/

/-- Claim C1: for every prior conversation state — the four enumerated
statuses or the never-seen case — both the pure FSM `nextStatusOnPatient`
of part_000 and the v11h webhook's patient-side switch (seeded with the
`or Status.ROBO` default of line 870) assign exactly the new state given by
the table in §4.1 of the spec: `FINALIZADO ↦ ROBO`, `PENDENTE ↦ PENDENTE`,
`HUMANO ↦ PENDENTE`, `ROBO ↦ ROBO`, absent `↦ ROBO`. -/
theorem C1_nextState_matches_table (s : Option String)
    (h : s = none ∨ s = some Status.ROBO ∨ s = some Status.PENDENTE ∨
         s = some Status.HUMANO ∨ s = some Status.FINALIZADO) :
    nextStatusOnPatient s = specNextStateOnPatientMessage s ∧
    v11hPatientStep (jsOrStr s Status.ROBO) = specNextStateOnPatientMessage s := by
  rcases h with rfl | rfl | rfl | rfl | rfl <;> exact ⟨by decide, by decide⟩

/-- Witness for C1 at the prior state `EM_ATENDIMENTO_HUMANO`. -/
theorem C1_nextState_matches_table_witness :
    (some Status.HUMANO = none ∨ some Status.HUMANO = some Status.ROBO ∨
     some Status.HUMANO = some Status.PENDENTE ∨
     some Status.HUMANO = some Status.HUMANO ∨
     some Status.HUMANO = some Status.FINALIZADO) ∧
    (nextStatusOnPatient (some Status.HUMANO)
        = specNextStateOnPatientMessage (some Status.HUMANO) ∧
     v11hPatientStep (jsOrStr (some Status.HUMANO) Status.ROBO)
        = specNextStateOnPatientMessage (some Status.HUMANO)) :=
  ⟨by decide, C1_nextState_matches_table (some Status.HUMANO) (by decide)⟩

/-- Claim C6: transfer-trigger detection is insensitive to letter case,
diacritics and the punctuation marks dot, bang and question mark, and uses
substring containment on the normalised text: the two texts named by the
spec both trigger (plus a diacritic-bearing variant), and any text whose
normalisation contains a configured trigger phrase as a substring triggers. -/
theorem C6_trigger_normalisation :
    hasTransferTrigger "Vou te Transferir para um atendente HUMANO!!" = true ∧
    hasTransferTrigger "vou te transferir para um atendente humano" = true ∧
    hasTransferTrigger "Vou te transferir para um atendente humáno." = true ∧
    ∀ (text t : String), t ∈ TRANSFER_TRIGGERS →
      jsIncludes (normaliseString text) t = true → hasTransferTrigger text = true := by
  refine ⟨by decide, by decide, by decide, ?_⟩
  intro text t ht h
  unfold hasTransferTrigger
  exact List.any_eq_true.mpr ⟨t, ht, h⟩

/-- Witness for C6: the second configured trigger phrase, occurring
mid-sentence with case, accent and punctuation noise, fires the detector. -/
theorem C6_trigger_normalisation_witness :
    ("vou te deixar com alguem da equipe" ∈ TRANSFER_TRIGGERS ∧
     jsIncludes (normaliseString "Ok!! Vou te deixar com ALGUÉM da equipe, tudo bem?")
       "vou te deixar com alguem da equipe" = true) ∧
    hasTransferTrigger "Ok!! Vou te deixar com ALGUÉM da equipe, tudo bem?" = true :=
  ⟨⟨by decide, by decide⟩,
   C6_trigger_normalisation.2.2.2 "Ok!! Vou te deixar com ALGUÉM da equipe, tudo bem?"
     "vou te deixar com alguem da equipe" (by decide) (by decide)⟩

/-- Claim C4: in `handleHumanSend`, when the payload is valid and the
instance credentials resolve, a non-2xx delivery status yields a 502
delivery-failure response with the database untouched (no ledger row, no
state override), while a 2xx delivery status yields a 200 response with the
`EM_ATENDIMENTO_HUMANO` bulk override followed by the agent event append. -/
theorem C4_humanSend_delivery_gate (m : InstMeta) (gsStatus : Nat)
    (instanceId : String) (numeroPaciente nomePaciente texto : Option String)
    (db : DB)
    (hphone : normalizePhone (jsOrStr numeroPaciente "") ≠ "")
    (htext : jsTrim (jsOrStr texto "") ≠ "")
    (htok : truthyS m.token = true) (hsrc : truthyS m.source_number = true) :
    (gsStatus < 200 ∨ 300 ≤ gsStatus →
      handleHumanSend (some m) gsStatus instanceId numeroPaciente nomePaciente texto db
        = (502, db)) ∧
    (200 ≤ gsStatus → gsStatus < 300 →
      handleHumanSend (some m) gsStatus instanceId numeroPaciente nomePaciente texto db
        = (200, safeInsert
            (agentRowOf instanceId (normalizePhone (jsOrStr numeroPaciente ""))
              (jsOrStr nomePaciente "") (jsTrim (jsOrStr texto "")))
            (massUpdate (normalizePhone (jsOrStr numeroPaciente "")) Status.HUMANO db))) := by
  have hcond : ¬(normalizePhone (jsOrStr numeroPaciente "") = "" ∨
      jsTrim (jsOrStr texto "") = "") := by
    rintro (hc | hc)
    · exact hphone hc
    · exact htext hc
  have hcred : ¬(¬ truthyS m.token ∨ ¬ truthyS m.source_number) := by
    rintro (hc | hc)
    · exact hc htok
    · exact hc hsrc
  constructor
  · intro hfail
    simp only [handleHumanSend]
    rw [if_neg hcond]
    rw [if_neg hcred, if_pos hfail]
  · intro h₁ h₂
    simp only [handleHumanSend]
    rw [if_neg hcond]
    rw [if_neg hcred, if_neg (by omega : ¬(gsStatus < 200 ∨ 300 ≤ gsStatus))]

/-- The instance credentials used by the C4 witness. -/
def c4Meta : InstMeta := { token := some "tok", source_number := some "5521000000000" }

/-- Witness for C4: a 500 from the delivery collaborator leaves the empty
table untouched and surfaces a 502. -/
theorem C4_humanSend_delivery_gate_witness :
    (normalizePhone (jsOrStr (some "5521999887766") "") ≠ "" ∧
     jsTrim (jsOrStr (some "ola") "") ≠ "" ∧
     truthyS c4Meta.token = true ∧ truthyS c4Meta.source_number = true ∧
     ((500 : Nat) < 200 ∨ (300 : Nat) ≤ 500)) ∧
    handleHumanSend (some c4Meta) 500 "0" (some "5521999887766") none (some "ola") emptyDB
      = (502, emptyDB) :=
  ⟨⟨by decide, by decide, by decide, by decide, Or.inr (by decide)⟩,
   (C4_humanSend_delivery_gate c4Meta 500 "0" (some "5521999887766") none (some "ola")
     emptyDB (by decide) (by decide) (by decide) (by decide)).1 (Or.inr (by decide))⟩

/-- Claim C10: the v11h administrative status-override endpoint rejects,
with a validation error and no mutation, every requested status that is
falsy or outside the four-value enumeration; whenever it succeeds, the
status it bulk-writes to the ledger is one of the four enumerated values. -/
theorem C10_patch_status_enum_gate (numeroRaw : String) (sA s : Option String)
    (db : DB) :
    (desiredStatus sA s = none →
      patchStatus numeroRaw sA s db = (SimpleResp.badRequest, db)) ∧
    (∀ d, desiredStatus sA s = some d → d ∉ statusValues →
      patchStatus numeroRaw sA s db = (SimpleResp.badRequest, db)) ∧
    ((patchStatus numeroRaw sA s db).1 = SimpleResp.received →
      ∃ d, desiredStatus sA s = some d ∧ d ∈ statusValues ∧
        (patchStatus numeroRaw sA s db).2 = massUpdate (normalizePhone numeroRaw) d db ∧
        ∀ r ∈ (patchStatus numeroRaw sA s db).2.rows,
          r.numero_paciente = normalizePhone numeroRaw →
          r.status_atendimento = some d ∧ r.status_conversa = some d) := by
  refine ⟨?_, ?_, ?_⟩
  · intro h
    simp [patchStatus, h]
  · intro d hd hmem
    simp [patchStatus, hd, hmem]
  · intro hok
    simp only [patchStatus] at hok ⊢
    cases hdes : desiredStatus sA s with
    | none =>
      rw [hdes] at hok
      simp at hok
    | some d =>
      rw [hdes] at hok
      dsimp only at hok ⊢
      by_cases hmem : d ∈ statusValues
      · rw [if_pos hmem] at hok ⊢
        exact ⟨d, rfl, hmem, rfl,
          fun r hr hn => mem_massUpdate_status (normalizePhone numeroRaw) d db r hr hn⟩
      · rw [if_neg hmem] at hok
        simp at hok

/-- Witness for C10: the non-enumerated status FOO is rejected without
mutating the table. -/
theorem C10_patch_status_enum_gate_witness :
    (desiredStatus (some "FOO") none = some "FOO" ∧ "FOO" ∉ statusValues) ∧
    patchStatus "5521999887766" (some "FOO") none emptyDB
      = (SimpleResp.badRequest, emptyDB) :=
  ⟨⟨by decide, by decide⟩,
   (C10_patch_status_enum_gate "5521999887766" (some "FOO") none emptyDB).2.1
     "FOO" (by decide) (by decide)⟩

/-- A webhook payload that carries an assistant reply but no patient
message text. -/
def c5Payload : Payload :=
  { instanceId := none, numeroPaciente := some "5521990000000",
    mensagemPaciente := none, respostaRobo := some "ola, posso ajudar?",
    nomePaciente := none, remetente := none }

/-- Counterexample to C5: the v11h webhook accepts a payload that lacks the
patient message text — the request succeeds (received, not suppressed, no
validation error) and the ledger is mutated (a robot row is appended). -/
theorem C5_counterexample :
    (v11hWebhook c5Payload emptyDB).1 = WebhookResp.received false ∧
    (v11hWebhook c5Payload emptyDB).2.rows.length = 1 := by decide

/-- Claim C5 as amended: the first-revision webhook rejects, with a
validation error and no mutation, every payload lacking the patient message
text (or the conversation key); the v11h webhook enforces only the
conversation key — a payload whose key normalises to the empty string is
rejected with a validation error and no mutation, but a missing patient
text alone is not rejected there. -/
theorem C5_amended_validation (p : Payload) (db : DB) :
    (truthyS p.mensagemPaciente = false →
      firstWebhook p db = (SimpleResp.badRequest, db)) ∧
    (truthyS p.numeroPaciente = false →
      firstWebhook p db = (SimpleResp.badRequest, db)) ∧
    (normalizePhone (jsOrStr p.numeroPaciente "") = "" →
      v11hWebhook p db = (WebhookResp.badRequest, db)) := by
  refine ⟨?_, ?_, ?_⟩
  · intro h
    simp [firstWebhook, h]
  · intro h
    simp [firstWebhook, h]
  · intro h
    simp [v11hWebhook, h]

/-- Witness for C5 (amended): the first-revision webhook rejects the
payload lacking patient text without touching the table. -/
theorem C5_amended_validation_witness :
    truthyS c5Payload.mensagemPaciente = false ∧
    firstWebhook c5Payload emptyDB = (SimpleResp.badRequest, emptyDB) :=
  ⟨by decide, (C5_amended_validation c5Payload emptyDB).1 (by decide)⟩

/-- The state the v11h patient branch returns is the patient-side step of
the seeded current status whenever the sender is the patient. -/
theorem v11hPatient_fst (p : Payload) (numero : String) (db : DB)
    (hrem : effRemetente p = "Paciente") :
    (v11hPatient p numero db).1 = v11hPatientStep (currentStatusOf db numero) := by
  simp [v11hPatient, hrem]

/-- Claim C2: an assistant reply carried in a v11h webhook call that
processes a patient message is suppressed exactly when the state resulting
from the patient-message transition in that same call is `PENDENTE` or
`FINALIZADO`; when suppressed the request still succeeds (received with the
suppressed flag, no error) and no assistant event is appended (the database
is exactly the patient-phase result); otherwise the assistant event is
appended. -/
theorem C2_assistant_suppression (p : Payload) (db : DB) (r numero : String)
    (hnum : numero = normalizePhone (jsOrStr p.numeroPaciente "")) (hnz : numero ≠ "")
    (hrem : effRemetente p = "Paciente") (hmsg : truthyS p.mensagemPaciente = true)
    (hresp : p.respostaRobo = some r) (hr : r ≠ "") :
    ((v11hWebhook p db).1 = WebhookResp.received true ∨
     (v11hWebhook p db).1 = WebhookResp.received false) ∧
    ((v11hWebhook p db).1 = WebhookResp.received true ↔
      v11hPatientStep (currentStatusOf db numero) = Status.PENDENTE ∨
      v11hPatientStep (currentStatusOf db numero) = Status.FINALIZADO) ∧
    (v11hPatientStep (currentStatusOf db numero) = Status.PENDENTE ∨
     v11hPatientStep (currentStatusOf db numero) = Status.FINALIZADO →
      (v11hWebhook p db).2 = (v11hPatient p numero db).2) ∧
    (¬(v11hPatientStep (currentStatusOf db numero) = Status.PENDENTE ∨
       v11hPatientStep (currentStatusOf db numero) = Status.FINALIZADO) →
      (v11hWebhook p db).2 =
        safeInsert
          (robotRowOf p numero r
            (if hasTransferTrigger r then Status.PENDENTE else Status.ROBO))
          (if hasTransferTrigger r then
            massUpdate numero Status.PENDENTE (v11hPatient p numero db).2
          else (v11hPatient p numero db).2)) := by
  have hnz' : normalizePhone (jsOrStr p.numeroPaciente "") ≠ "" := hnum ▸ hnz
  have hresp' : effResposta p = some r := by
    simp [effResposta, hresp, truthyS, hr]
  have hfold : v11hWebhook p db
      = v11hRobot p numero (v11hPatientStep (currentStatusOf db numero))
          (v11hPatient p numero db).2 := by
    simp only [v11hWebhook]
    rw [if_neg hnz', ← hnum, v11hPatient_fst p numero db hrem]
  rw [hfold]
  by_cases hsupp : v11hPatientStep (currentStatusOf db numero) = Status.PENDENTE ∨
      v11hPatientStep (currentStatusOf db numero) = Status.FINALIZADO
  · have hrb : v11hRobot p numero (v11hPatientStep (currentStatusOf db numero))
        (v11hPatient p numero db).2
        = (WebhookResp.received true, (v11hPatient p numero db).2) := by
      simp only [v11hRobot, hresp']
      rw [if_pos hsupp]
    rw [hrb]
    exact ⟨Or.inl rfl, ⟨fun _ => hsupp, fun _ => rfl⟩, fun _ => rfl,
      fun hns => absurd hsupp hns⟩
  · have hrb : v11hRobot p numero (v11hPatientStep (currentStatusOf db numero))
        (v11hPatient p numero db).2
        = (WebhookResp.received false,
           safeInsert
             (robotRowOf p numero r
               (if hasTransferTrigger r then Status.PENDENTE else Status.ROBO))
             (if hasTransferTrigger r then
               massUpdate numero Status.PENDENTE (v11hPatient p numero db).2
             else (v11hPatient p numero db).2)) := by
      simp only [v11hRobot, hresp']
      rw [if_neg hsupp]
    rw [hrb]
    refine ⟨Or.inr rfl, ⟨fun hco => ?_, fun hs => absurd hs hsupp⟩,
      fun hs => absurd hs hsupp, fun _ => rfl⟩
    simp at hco

/-- A webhook payload carrying both a patient message and a plain assistant
reply, with an explicit patient sender. -/
def c2Payload : Payload :=
  { instanceId := none, numeroPaciente := some "5521999887766",
    mensagemPaciente := some "oi", respostaRobo := some "como posso ajudar?",
    nomePaciente := none, remetente := some "Paciente" }

/-- Witness for C2 on the empty table: the patient transition lands on
`EM_ATENDIMENTO_ROBO`, so the reply is not suppressed and is appended. -/
theorem C2_assistant_suppression_witness :
    ("5521999887766" = normalizePhone (jsOrStr c2Payload.numeroPaciente "") ∧
     ("5521999887766" : String) ≠ "" ∧ effRemetente c2Payload = "Paciente" ∧
     truthyS c2Payload.mensagemPaciente = true ∧
     c2Payload.respostaRobo = some "como posso ajudar?" ∧
     ("como posso ajudar?" : String) ≠ "") ∧
    (((v11hWebhook c2Payload emptyDB).1 = WebhookResp.received true ∨
      (v11hWebhook c2Payload emptyDB).1 = WebhookResp.received false) ∧
     ((v11hWebhook c2Payload emptyDB).1 = WebhookResp.received true ↔
       v11hPatientStep (currentStatusOf emptyDB "5521999887766") = Status.PENDENTE ∨
       v11hPatientStep (currentStatusOf emptyDB "5521999887766") = Status.FINALIZADO) ∧
     (v11hPatientStep (currentStatusOf emptyDB "5521999887766") = Status.PENDENTE ∨
      v11hPatientStep (currentStatusOf emptyDB "5521999887766") = Status.FINALIZADO →
       (v11hWebhook c2Payload emptyDB).2 = (v11hPatient c2Payload "5521999887766" emptyDB).2) ∧
     (¬(v11hPatientStep (currentStatusOf emptyDB "5521999887766") = Status.PENDENTE ∨
        v11hPatientStep (currentStatusOf emptyDB "5521999887766") = Status.FINALIZADO) →
       (v11hWebhook c2Payload emptyDB).2 =
         safeInsert
           (robotRowOf c2Payload "5521999887766" "como posso ajudar?"
             (if hasTransferTrigger "como posso ajudar?" then Status.PENDENTE
              else Status.ROBO))
           (if hasTransferTrigger "como posso ajudar?" then
             massUpdate "5521999887766" Status.PENDENTE
               (v11hPatient c2Payload "5521999887766" emptyDB).2
           else (v11hPatient c2Payload "5521999887766" emptyDB).2))) :=
  ⟨⟨by decide, by decide, by decide, by decide, rfl, by decide⟩,
   C2_assistant_suppression c2Payload emptyDB "como posso ajudar?" "5521999887766"
     (by decide) (by decide) (by decide) (by decide) rfl (by decide)⟩

/-- Claim C3, as amended: from a `EM_ATENDIMENTO_ROBO` conversation, a v11h
webhook call carrying a patient message together with an assistant reply
whose normalised text contains one of the configured trigger phrases (the
`TRANSFER_TRIGGERS`, both of which start with the words vou te) succeeds
without suppression, leaves every stored row of the conversation key with
both status columns forced to `PENDENTE`, and the conversation's current
state reads `PENDENTE`.  The bare phrase transferir para um atendente
humano is not itself a configured trigger — see the C3 counterexample. -/
theorem C3_transfer_forces_pendente (p : Payload) (db : DB) (r numero : String)
    (hnum : numero = normalizePhone (jsOrStr p.numeroPaciente "")) (hnz : numero ≠ "")
    (hrem : effRemetente p = "Paciente") (hmsg : truthyS p.mensagemPaciente = true)
    (hresp : p.respostaRobo = some r) (hr : r ≠ "")
    (hcur : currentStatusOf db numero = Status.ROBO)
    (htrig : hasTransferTrigger r = true) :
    (v11hWebhook p db).1 = WebhookResp.received false ∧
    (∀ row ∈ (v11hWebhook p db).2.rows, row.numero_paciente = numero →
      row.status_atendimento = some Status.PENDENTE ∧
      row.status_conversa = some Status.PENDENTE) ∧
    currentStatusOf (v11hWebhook p db).2 numero = Status.PENDENTE := by
  have hnz' : normalizePhone (jsOrStr p.numeroPaciente "") ≠ "" := hnum ▸ hnz
  have hresp' : effResposta p = some r := by
    simp [effResposta, hresp, truthyS, hr]
  have hstep : v11hPatientStep Status.ROBO = Status.ROBO := by decide
  have hnot : ¬(Status.ROBO = Status.PENDENTE ∨ Status.ROBO = Status.FINALIZADO) := by
    decide
  have hpat : v11hPatient p numero db
      = (Status.ROBO, safeInsert (patientRowOf p numero Status.ROBO) db) := by
    simp only [v11hPatient]
    rw [if_pos hrem, hcur, hstep]
    rw [if_pos hmsg, if_neg hnot]
  have hweb : v11hWebhook p db
      = (WebhookResp.received false,
         safeInsert (robotRowOf p numero r Status.PENDENTE)
           (massUpdate numero Status.PENDENTE
             (safeInsert (patientRowOf p numero Status.ROBO) db))) := by
    simp only [v11hWebhook]
    rw [if_neg hnz', ← hnum, hpat]
    simp only [v11hRobot, hresp']
    rw [if_neg hnot]
    simp only [htrig, if_true]
  rw [hweb]
  have hall : ∀ row ∈ (safeInsert (robotRowOf p numero r Status.PENDENTE)
      (massUpdate numero Status.PENDENTE
        (safeInsert (patientRowOf p numero Status.ROBO) db))).rows,
      row.numero_paciente = numero →
      row.status_atendimento = some Status.PENDENTE ∧
      row.status_conversa = some Status.PENDENTE := by
    intro row hrow hmatch
    rcases List.mem_append.mp hrow with hin | hin
    · exact mem_massUpdate_status numero Status.PENDENTE _ row hin hmatch
    · rcases List.mem_singleton.mp hin with rfl
      exact ⟨rfl, rfl⟩
  refine ⟨rfl, hall, ?_⟩
  have hmem : stamp (robotRowOf p numero r Status.PENDENTE)
      (massUpdate numero Status.PENDENTE
        (safeInsert (patientRowOf p numero Status.ROBO) db)).clock
      ∈ (safeInsert (robotRowOf p numero r Status.PENDENTE)
          (massUpdate numero Status.PENDENTE
            (safeInsert (patientRowOf p numero Status.ROBO) db))).rows := by
    simp [safeInsert]
  have hsome := latestRowFor_isSome numero _ _ hmem rfl
  obtain ⟨rl, hrl⟩ := Option.isSome_iff_exists.mp hsome
  have hspec := latestRowFor_spec numero _ rl hrl
  have hstat := hall rl hspec.1 hspec.2
  unfold currentStatusOf
  rw [hrl]
  dsimp only
  rw [hstat.2]
  unfold jsOrStr
  dsimp only
  rw [if_neg (by decide : ¬(Status.PENDENTE = ""))]

/-- A webhook payload whose assistant reply contains the transfer phrase. -/
def c3Payload : Payload :=
  { instanceId := none, numeroPaciente := some "5521999887766",
    mensagemPaciente := some "quero falar com uma pessoa",
    respostaRobo := some "Vou te transferir para um atendente humano!",
    nomePaciente := none, remetente := some "Paciente" }

/-- Witness for C3 on the empty table. -/
theorem C3_transfer_forces_pendente_witness :
    ("5521999887766" = normalizePhone (jsOrStr c3Payload.numeroPaciente "") ∧
     ("5521999887766" : String) ≠ "" ∧ effRemetente c3Payload = "Paciente" ∧
     truthyS c3Payload.mensagemPaciente = true ∧
     c3Payload.respostaRobo = some "Vou te transferir para um atendente humano!" ∧
     ("Vou te transferir para um atendente humano!" : String) ≠ "" ∧
     currentStatusOf emptyDB "5521999887766" = Status.ROBO ∧
     hasTransferTrigger "Vou te transferir para um atendente humano!" = true) ∧
    ((v11hWebhook c3Payload emptyDB).1 = WebhookResp.received false ∧
     (∀ row ∈ (v11hWebhook c3Payload emptyDB).2.rows,
       row.numero_paciente = "5521999887766" →
       row.status_atendimento = some Status.PENDENTE ∧
       row.status_conversa = some Status.PENDENTE) ∧
     currentStatusOf (v11hWebhook c3Payload emptyDB).2 "5521999887766"
       = Status.PENDENTE) :=
  ⟨⟨by decide, by decide, by decide, by decide, rfl, by decide, by decide, by decide⟩,
   C3_transfer_forces_pendente c3Payload emptyDB
     "Vou te transferir para um atendente humano!" "5521999887766"
     (by decide) (by decide) (by decide) (by decide) rfl (by decide)
     (by decide) (by decide)⟩

/-- A webhook payload whose assistant reply contains the bare phrase
transferir para um atendente humano but neither configured trigger. -/
def c3CePayload : Payload :=
  { instanceId := none, numeroPaciente := some "5521999887766",
    mensagemPaciente := some "quero falar com uma pessoa",
    respostaRobo := some "Certo, posso transferir para um atendente humano.",
    nomePaciente := none, remetente := some "Paciente" }

/-- Counterexample to C3 as stated: from `EM_ATENDIMENTO_ROBO`, an
assistant reply whose normalised text does contain the claim's phrase
transferir para um atendente humano — but not the configured trigger
phrases, which both start with vou te — does not fire the v11h trigger
check: the call succeeds unsuppressed, every row of the key keeps both
status columns at `EM_ATENDIMENTO_ROBO` (no override of prior events), and
the conversation's current state stays `EM_ATENDIMENTO_ROBO`, not
`PENDENTE`. -/
theorem C3_counterexample :
    jsIncludes
        (normaliseString "Certo, posso transferir para um atendente humano.")
        "transferir para um atendente humano" = true ∧
    hasTransferTrigger "Certo, posso transferir para um atendente humano." = false ∧
    currentStatusOf emptyDB "5521999887766" = Status.ROBO ∧
    (v11hWebhook c3CePayload emptyDB).1 = WebhookResp.received false ∧
    (∀ row ∈ (v11hWebhook c3CePayload emptyDB).2.rows,
      row.status_atendimento = some Status.ROBO ∧
      row.status_conversa = some Status.ROBO) ∧
    currentStatusOf (v11hWebhook c3CePayload emptyDB).2 "5521999887766"
      = Status.ROBO := by
  decide

/-- Claim C9: a v11h webhook payload whose sender is the patient but whose
patient text is empty or missing still computes the patient-side
transition; when the resulting state is `PENDENTE` or `FINALIZADO` the
handler bulk-overrides the stored state of every row of the conversation
key while appending no row at all — the table is exactly the bulk override
of the previous table, with the same number of rows. -/
theorem C9_state_change_without_row (p : Payload) (db : DB) (numero st : String)
    (hnum : numero = normalizePhone (jsOrStr p.numeroPaciente "")) (hnz : numero ≠ "")
    (hrem : effRemetente p = "Paciente") (hmsg : truthyS p.mensagemPaciente = false)
    (hst : st = v11hPatientStep (currentStatusOf db numero))
    (hpend : st = Status.PENDENTE ∨ st = Status.FINALIZADO) :
    (v11hWebhook p db).2 = massUpdate numero st db ∧
    (v11hWebhook p db).2.rows.length = db.rows.length ∧
    ∀ row ∈ (v11hWebhook p db).2.rows, row.numero_paciente = numero →
      row.status_atendimento = some st ∧ row.status_conversa = some st := by
  have hnz' : normalizePhone (jsOrStr p.numeroPaciente "") ≠ "" := hnum ▸ hnz
  have hpat : v11hPatient p numero db = (st, massUpdate numero st db) := by
    simp only [v11hPatient]
    rw [if_pos hrem, ← hst]
    have hm : ¬ (truthyS p.mensagemPaciente = true) := by simp [hmsg]
    rw [if_neg hm, if_pos hpend]
  have hsnd : (v11hWebhook p db).2 = massUpdate numero st db := by
    simp only [v11hWebhook]
    rw [if_neg hnz', ← hnum, hpat]
    cases hre : effResposta p with
    | none => simp [v11hRobot, hre]
    | some resp =>
      simp only [v11hRobot, hre]
      rw [if_pos hpend]
  refine ⟨hsnd, ?_, ?_⟩
  · rw [hsnd]
    exact massUpdate_rows_length numero st db
  · rw [hsnd]
    intro row hrow h
    exact mem_massUpdate_status numero st db row hrow h

/-- A webhook payload from the patient with no patient text at all. -/
def c9Payload : Payload :=
  { instanceId := none, numeroPaciente := some "5521999887766",
    mensagemPaciente := none, respostaRobo := none,
    nomePaciente := none, remetente := some "Paciente" }

/-- Witness for C9 on a conversation in `EM_ATENDIMENTO_HUMANO`: the
transition lands on `PENDENTE`, every row is overridden, and no row is
appended. -/
theorem C9_state_change_without_row_witness :
    ("5521999887766" = normalizePhone (jsOrStr c9Payload.numeroPaciente "") ∧
     ("5521999887766" : String) ≠ "" ∧ effRemetente c9Payload = "Paciente" ∧
     truthyS c9Payload.mensagemPaciente = false ∧
     Status.PENDENTE = v11hPatientStep (currentStatusOf humanDB "5521999887766") ∧
     (Status.PENDENTE = Status.PENDENTE ∨ Status.PENDENTE = Status.FINALIZADO)) ∧
    ((v11hWebhook c9Payload humanDB).2
        = massUpdate "5521999887766" Status.PENDENTE humanDB ∧
     (v11hWebhook c9Payload humanDB).2.rows.length = humanDB.rows.length ∧
     ∀ row ∈ (v11hWebhook c9Payload humanDB).2.rows,
       row.numero_paciente = "5521999887766" →
       row.status_atendimento = some Status.PENDENTE ∧
       row.status_conversa = some Status.PENDENTE) :=
  ⟨⟨by decide, by decide, by decide, by decide, by decide, Or.inl rfl⟩,
   C9_state_change_without_row c9Payload humanDB "5521999887766" Status.PENDENTE
     (by decide) (by decide) (by decide) (by decide) (by decide) (Or.inl rfl)⟩

/-- A single patient row used by the C7 counterexample. -/
def c7Row : Row :=
  { instance_id := "0", numero_paciente := "5521988887777", nome_paciente := none,
    mensagem_paciente := some "oi", resposta_robo := none,
    resposta_atendente := none, remetente := "Paciente",
    status_atendimento := some Status.ROBO, status_conversa := some Status.ROBO,
    created_at := 0, updated_at := 0 }

/-- A one-row table for the C7 counterexample. -/
def c7DB : DB := { rows := [c7Row], clock := 1 }

/-- Counterexample to C7: the bulk override stamps a fresh `updated_at`
watermark on every call, so calling it twice in a row yields a
`listConversations` entry whose `updatedAt` differs from the entry after a
single call — the entries are not equal. -/
theorem C7_counterexample :
    listEntryFor "5521988887777"
        (massUpdate "5521988887777" Status.FINALIZADO
          (massUpdate "5521988887777" Status.FINALIZADO c7DB))
      ≠ listEntryFor "5521988887777"
          (massUpdate "5521988887777" Status.FINALIZADO c7DB) := by
  decide

/-- Claim C7 as amended: the bulk override is idempotent with respect to the
`listConversations` entry up to the `updatedAt` recency watermark — calling
`setConversationStatusMass` twice in a row yields, for every table, key and
status, the same entry as calling it once on every field except
`updatedAt`, which carries the later call's timestamp. -/
theorem C7_override_idempotent_core (db : DB) (numero S : String) :
    (listEntryFor numero
        (massUpdate numero S (massUpdate numero S db))).map ConvEntry.core
      = (listEntryFor numero (massUpdate numero S db)).map ConvEntry.core := by
  have hcomp : ∀ (t₁ t₂ : Nat) (r : Row),
      updRow numero S t₂ (updRow numero S t₁ r) = updRow numero S t₂ r := by
    intro t₁ t₂ r
    by_cases h : r.numero_paciente = numero
    · simp [updRow, h]
    · simp [updRow, h]
  have hcore : ∀ (t₁ t₂ : Nat) (r : Row),
      (convEntry (updRow numero S t₂ r)).core = (convEntry (updRow numero S t₁ r)).core := by
    intro t₁ t₂ r
    unfold updRow
    by_cases h : r.numero_paciente = numero
    · rw [if_pos h, if_pos h]
      rfl
    · rw [if_neg h, if_neg h]
  have hrows : (massUpdate numero S (massUpdate numero S db)).rows
      = List.map (updRow numero S (db.clock + 1)) db.rows := by
    have h0 : (massUpdate numero S (massUpdate numero S db)).rows
        = List.map (updRow numero S (db.clock + 1))
            (List.map (updRow numero S db.clock) db.rows) := rfl
    rw [h0, List.map_map]
    exact List.map_congr_left (fun r _ => hcomp db.clock (db.clock + 1) r)
  have hrows1 : (massUpdate numero S db).rows
      = List.map (updRow numero S db.clock) db.rows := rfl
  unfold listEntryFor
  rw [hrows, hrows1]
  rw [latestRowFor_map numero (updRow numero S (db.clock + 1))
    (updRow_numero numero S _) (updRow_created numero S _)]
  rw [latestRowFor_map numero (updRow numero S db.clock)
    (updRow_numero numero S _) (updRow_created numero S _)]
  cases latestRowFor numero db.rows with
  | none => rfl
  | some r =>
    simp only [Option.map_some']
    exact congrArg some (hcore db.clock (db.clock + 1) r)

/-- Claim C8: on any table whose timestamps are below the store clock,
appending an event with `safeInsert` and then fetching the history of its
conversation key returns a sequence that contains the stamped event exactly
once, is ordered ascending by creation time, and extends the previous
history by that event at the end (insertion order). -/
theorem C8_append_history_roundtrip (db : DB) (row : Row)
    (h : timesOK db.rows db.clock) :
    (getHistory row.numero_paciente (safeInsert row db)).count (stamp row db.clock) = 1 ∧
    Ascending (getHistory row.numero_paciente (safeInsert row db)) ∧
    getHistory row.numero_paciente (safeInsert row db)
      = getHistory row.numero_paciente db ++ [stamp row db.clock] := by
  have hfil : (safeInsert row db).rows.filter
        (fun r => r.numero_paciente = row.numero_paciente)
      = db.rows.filter (fun r => r.numero_paciente = row.numero_paciente)
          ++ [stamp row db.clock] := by
    simp [safeInsert, List.filter_append, stamp]
  have hbound : ∀ a ∈ db.rows.filter (fun r => r.numero_paciente = row.numero_paciente),
      a.created_at ≤ (stamp row db.clock).created_at := by
    intro a ha
    have hlt := h a (List.mem_of_mem_filter ha)
    simpa [stamp] using Nat.le_of_lt hlt
  have h3 : getHistory row.numero_paciente (safeInsert row db)
      = getHistory row.numero_paciente db ++ [stamp row db.clock] := by
    unfold getHistory
    rw [hfil]
    exact sortByTime_append_last _ _ hbound
  have hnotin : stamp row db.clock ∉ getHistory row.numero_paciente db := by
    intro hmem
    unfold getHistory at hmem
    have hmem' := (mem_sortByTime _ _).mp hmem
    have hmem'' := List.mem_of_mem_filter hmem'
    have hlt := h _ hmem''
    simp [stamp] at hlt
  refine ⟨?_, ?_, h3⟩
  · rw [h3, List.count_append]
    rw [List.count_eq_zero.mpr hnotin]
    simp
  · rw [h3]
    unfold Ascending
    rw [List.pairwise_append]
    refine ⟨pairwise_sortByTime _, List.pairwise_singleton _ _, ?_⟩
    intro a ha b hb
    rw [List.mem_singleton.mp hb]
    unfold getHistory at ha
    have ha' := (mem_sortByTime _ _).mp ha
    exact hbound a ha'

/-- A patient row appended by the C8 witness. -/
def c8Row : Row :=
  { instance_id := "0", numero_paciente := "5521999887766", nome_paciente := none,
    mensagem_paciente := some "bom dia", resposta_robo := none,
    resposta_atendente := none, remetente := "Paciente",
    status_atendimento := some Status.ROBO, status_conversa := some Status.ROBO,
    created_at := 0, updated_at := 0 }

/-- Witness for C8 on the one-row human table. -/
theorem C8_append_history_roundtrip_witness :
    timesOK humanDB.rows humanDB.clock ∧
    ((getHistory c8Row.numero_paciente (safeInsert c8Row humanDB)).count
        (stamp c8Row humanDB.clock) = 1 ∧
     Ascending (getHistory c8Row.numero_paciente (safeInsert c8Row humanDB)) ∧
     getHistory c8Row.numero_paciente (safeInsert c8Row humanDB)
       = getHistory c8Row.numero_paciente humanDB ++ [stamp c8Row humanDB.clock]) :=
  ⟨by
    intro r hr
    simp only [humanDB, List.mem_singleton] at hr
    subst hr
    decide,
   C8_append_history_roundtrip humanDB c8Row (by
    intro r hr
    simp only [humanDB, List.mem_singleton] at hr
    subst hr
    decide)⟩
